import Mathlib

/-!
Shallow embedding of the `spectralio` Python package (data models and file
I/O for spectral measurements), covering the geotransform pixel/map
conversions (`geospatial_models.py`), the wavelength-series model with unit
conversion and nearest-value lookup (`wvl_models.py`), the 1-D spectrum
records (`spec1D_models.py`), the readers (`reading.py`) and the 1-D
spectrum writer (`writing.py`).

Python floats are embedded as exact rationals (`ℚ`); Python exceptions are
embedded as an explicit error type returned through `Except` (or paired
with the unchanged state, for methods that mutate in place). Division in
the source is a genuine Python float division, which raises
`ZeroDivisionError` on a zero divisor, so each embedded division site is
guarded by an explicit zero test that produces the corresponding error.
-/

namespace Spectralio

/-- Runtime errors that the embedded code can surface. `validationError`
stands for pydantic's `ValidationError` (also produced when a `ValueError`
escapes a validator), `zeroDivisionError` for Python's raw
`ZeroDivisionError`, `geographicBoundsError` for the package's
`GeographicBoundsError` carrying the offending map coordinate and the
violated bound quoted in its message, `indexError` for numpy's
boolean-mask `IndexError`, `valueError` for a plain `ValueError`, and
`fileTypeError` for the package's `FileTypeError` carrying the extension
named as expected in the message and the extension actually given. -/
inductive PyErr where
  | validationError
  | zeroDivisionError
  | geographicBoundsError (coord : ℚ) (bound : ℚ)
  | indexError
  | valueError
  | fileTypeError (expected : String) (got : String)
deriving DecidableEq

/-- Embedding of `PointModel` (geospatial_models.py): an ordered pair. -/
structure PointModel where
  x : ℚ
  y : ℚ
deriving DecidableEq

/-- Embedding of `GeotransformModel` (geospatial_models.py): the six
affine geotransform coefficients. -/
structure GeotransformModel where
  upperleft : PointModel
  xres : ℚ
  row_rotation : ℚ
  yres : ℚ
  col_rotation : ℚ
deriving DecidableEq

/-- The `convention` literal of `pixel_to_map`: `"globe"` or `"hemi"`. -/
inductive Convention where
  | globe
  | hemi
deriving DecidableEq

/-- Determinant of the 2x2 linear part of the geotransform, the
`_scaler` quantity of `map_to_pixel`. -/
def GeotransformModel.determinant (g : GeotransformModel) : ℚ :=
  g.xres * g.yres - g.col_rotation * g.row_rotation

/-- Embedding of `GeotransformModel.pixel_to_map` (geospatial_models.py
lines 96-113): affine image of a pixel coordinate, with optional
longitude wrapping under the `"globe"` convention. Pure, total. -/
def GeotransformModel.pixel_to_map (g : GeotransformModel)
    (xpixel ypixel : ℚ) (convention : Convention) : ℚ × ℚ :=
  let xmap := g.upperleft.x + xpixel * g.xres + ypixel * g.row_rotation
  let ymap := g.upperleft.y + ypixel * g.yres + xpixel * g.col_rotation
  match convention with
  | .globe => if xmap < 0 then (xmap + 360, ymap) else (xmap, ymap)
  | .hemi => (xmap, ymap)

/-- Embedding of `GeotransformModel.map_to_pixel` (geospatial_models.py
lines 115-141). The source divides by `self.xres` inside the `xpixel`
numerator, then by `_scaler`, then by `self.yres` inside the `ypixel`
numerator, then by `_scaler` again; each zero divisor raises a raw
`ZeroDivisionError` at that point, embedded here as guards in the same
order. Negative computed pixel coordinates raise
`GeographicBoundsError`, whose message quotes the offending input map
coordinate and the violated bound (`upperleft.x` for x, `upperleft.y`
for y). -/
def GeotransformModel.map_to_pixel (g : GeotransformModel)
    (xmap ymap : ℚ) : Except PyErr (ℚ × ℚ) :=
  let _scaler := g.xres * g.yres - g.col_rotation * g.row_rotation
  if g.xres = 0 then .error .zeroDivisionError
  else if _scaler = 0 then .error .zeroDivisionError
  else if g.yres = 0 then .error .zeroDivisionError
  else
    let xpixel := (g.yres * xmap - g.upperleft.x * g.yres
      - (g.row_rotation * g.yres / g.xres) * ymap
      + g.row_rotation * g.upperleft.y) / _scaler
    let ypixel := (g.xres * ymap - g.upperleft.y * g.xres
      - (g.col_rotation * g.xres / g.yres) * xmap
      + g.col_rotation * g.upperleft.x) / _scaler
    if xpixel < 0 then .error (.geographicBoundsError xmap g.upperleft.x)
    else if ypixel < 0 then .error (.geographicBoundsError ymap g.upperleft.y)
    else .ok (xpixel, ypixel)

/-- Embedding of `BaseGeolocationModel` (geospatial_models.py). -/
structure BaseGeolocationModel where
  crs : String
  geotransform : GeotransformModel
deriving DecidableEq

/-- Embedding of `PointGeolocation` (geospatial_models.py): a base
geolocation together with a map-space point and a pixel-space point.
The pydantic model declares no validator relating the two points. -/
structure PointGeolocation extends BaseGeolocationModel where
  map_point : PointModel
  pixel_point : PointModel
deriving DecidableEq

/-- The `location_type` literal: `"map"` or `"pixel"`. -/
inductive LocationType where
  | map
  | pixel
deriving DecidableEq

/-- Embedding of `PointGeolocation.from_base` (geospatial_models.py lines
157-175): computes the missing point through the owned geotransform;
the map→pixel direction propagates `map_to_pixel`'s errors. -/
def PointGeolocation.from_base (geoloc : BaseGeolocationModel)
    (location : ℚ × ℚ) (location_type : LocationType) :
    Except PyErr PointGeolocation :=
  match location_type with
  | .map =>
    match geoloc.geotransform.map_to_pixel location.1 location.2 with
    | .error e => .error e
    | .ok pixel_pt =>
      .ok { crs := geoloc.crs, geotransform := geoloc.geotransform,
            map_point := { x := location.1, y := location.2 },
            pixel_point := { x := pixel_pt.1, y := pixel_pt.2 } }
  | .pixel =>
    let map_pt := geoloc.geotransform.pixel_to_map location.1 location.2 .hemi
    .ok { crs := geoloc.crs, geotransform := geoloc.geotransform,
          map_point := { x := map_pt.1, y := map_pt.2 },
          pixel_point := { x := location.1, y := location.2 } }

/-- Embedding of pydantic validation of a `PointGeolocation` from JSON
fields (as performed by `GeoSpectrum1D.model_validate_json` in
reading.py lines 63-67): only per-field structural validation happens;
no cross-field consistency between `map_point` and `pixel_point` is
checked, so any pair of points is accepted. -/
def parsePointGeolocation (crs : String) (gt : GeotransformModel)
    (map_pt pixel_pt : PointModel) : Except PyErr PointGeolocation :=
  .ok { crs := crs, geotransform := gt,
        map_point := map_pt, pixel_point := pixel_pt }

/-- The `WvlUnit` literal type (custom_types.py): nanometers, microns,
meters, wavenumber. -/
inductive WvlUnit where
  | nm
  | um
  | m
  | v
deriving DecidableEq

/-- Embedding of `WvlModel` (wvl_models.py): wavelength values, unit,
good-band list and the derived fields as stored. -/
structure WvlModel where
  values : List ℚ
  unit : WvlUnit
  bbl : List Bool
  resolution : ℚ
  nbands : ℕ
  ngoodbands : ℕ
deriving DecidableEq

/-- Maximum of a list, as `np.max` computes it on a non-empty array
(the empty case is unreachable behind the emptiness guard, since
`np.max` on an empty array raises). -/
def listMax : List ℚ → ℚ
  | [] => 0
  | x :: xs => xs.foldl max x

/-- Minimum of a list, as `np.min` computes it on a non-empty array. -/
def listMin : List ℚ → ℚ
  | [] => 0
  | x :: xs => xs.foldl min x

/-- Embedding of `WvlModel` construction / pydantic validation
(wvl_models.py lines 40-53): field validation followed by the
`set_resolution` model validator, which computes
`resolution = (max - min) / size`, `nbands = len(values)` and
`ngoodbands = count_nonzero(bbl)`. On empty `values`, `np.max` raises a
`ValueError`, which pydantic converts to a `ValidationError`; no
validator compares `len(bbl)` with `len(values)`. -/
def mkWvlModel (values : List ℚ) (unit : WvlUnit) (bbl : List Bool) :
    Except PyErr WvlModel :=
  match values with
  | [] => .error .validationError
  | _ =>
    .ok { values := values, unit := unit, bbl := bbl,
          resolution := (listMax values - listMin values) / values.length,
          nbands := values.length,
          ngoodbands := bbl.count true }

/-- Embedding of `WvlModel.to_nm` (wvl_models.py lines 93-109): rescales
`values` into nanometers by the branch matching the current unit and
sets `unit := nm`; no other field is touched. -/
def WvlModel.to_nm (ws : WvlModel) : WvlModel :=
  match ws.unit with
  | .nm => { ws with unit := .nm }
  | .um => { ws with values := ws.values.map (fun x => x * 1000), unit := .nm }
  | .m =>
    { ws with values := ws.values.map (fun x => x * 1000000000), unit := .nm }
  | .v =>
    { ws with values := ws.values.map (fun x => 1000000000 / x), unit := .nm }

/-- Embedding of `WvlModel.to_um` (wvl_models.py lines 111-127). -/
def WvlModel.to_um (ws : WvlModel) : WvlModel :=
  match ws.unit with
  | .nm =>
    { ws with values := ws.values.map (fun x => x * (1 / 1000)), unit := .um }
  | .um => { ws with unit := .um }
  | .m =>
    { ws with values := ws.values.map (fun x => x * 1000000), unit := .um }
  | .v =>
    { ws with values := ws.values.map (fun x => 1000000 / x), unit := .um }

/-- Embedding of `WvlModel.to_m` (wvl_models.py lines 129-145). -/
def WvlModel.to_m (ws : WvlModel) : WvlModel :=
  match ws.unit with
  | .nm =>
    { ws with values := ws.values.map (fun x => x * (1 / 1000000000)),
              unit := .m }
  | .um =>
    { ws with values := ws.values.map (fun x => x * (1 / 1000000)),
              unit := .m }
  | .m => { ws with unit := .m }
  | .v => { ws with values := ws.values.map (fun x => 1 / x), unit := .m }

/-- Embedding of `WvlModel.to_v` (wvl_models.py lines 147-163). -/
def WvlModel.to_v (ws : WvlModel) : WvlModel :=
  match ws.unit with
  | .nm =>
    { ws with values := ws.values.map (fun x => 1000000000 / x), unit := .v }
  | .um =>
    { ws with values := ws.values.map (fun x => 1000000 / x), unit := .v }
  | .m => { ws with values := ws.values.map (fun x => 1 / x), unit := .v }
  | .v => { ws with unit := .v }

/-- Embedding of `WvlModel.convert_to` (wvl_models.py lines 165-173):
dispatch on the target unit. -/
def WvlModel.convert_to (ws : WvlModel) (u : WvlUnit) : WvlModel :=
  match u with
  | .nm => ws.to_nm
  | .um => ws.to_um
  | .m => ws.to_m
  | .v => ws.to_v

/-- Numpy boolean-mask indexing on equal-length operands: keep the
entries whose flag is true, in order. -/
def boolIndexFilter : List ℚ → List Bool → List ℚ
  | _, [] => []
  | [], _ => []
  | x :: xs, b :: bs =>
    if b then x :: boolIndexFilter xs bs else boolIndexFilter xs bs

/-- Embedding of `WvlModel.asarray` (wvl_models.py lines 72-85). With
`bbl=True` (the default) it indexes the values with the boolean mask;
numpy raises `IndexError` when the mask length does not match. -/
def WvlModel.asarray (ws : WvlModel) (bbl : Bool) : Except PyErr (List ℚ) :=
  if bbl then
    if ws.values.length = ws.bbl.length then
      .ok (boolIndexFilter ws.values ws.bbl)
    else .error .indexError
  else .ok ws.values

/-- Accumulator loop behind `argminAbs`: carries the running index, the
best index so far and the best absolute difference so far; a strictly
smaller difference is required to displace the incumbent, so the first
occurrence wins ties, as with `np.argmin`. -/
def argminAbsAux (g : ℚ) : List ℚ → ℕ → ℕ × ℚ → ℕ × ℚ
  | [], _, best => best
  | x :: xs, i, best =>
    if |x - g| < best.2 then argminAbsAux g xs (i + 1) (i, |x - g|)
    else argminAbsAux g xs (i + 1) best

/-- Embedding of `np.argmin(abs(arr - guess))`: index of the first entry
at minimal absolute difference from the guess. -/
def argminAbs (g : ℚ) : List ℚ → ℕ
  | [] => 0
  | x :: xs => (argminAbsAux g xs 1 (0, |x - g|)).1

/-- Embedding of `WvlModel.find` (wvl_models.py lines 175-200): converts
to the comparison unit, takes `asarray()` — which applies the bad-band
mask, since `bbl` defaults to `True` — runs `argmin` of the absolute
differences (`np.argmin` on an empty array raises `ValueError`),
converts back to the original unit, and returns the argmin index
together with `self.values[idx]`, read from the full restored values
list. -/
def WvlModel.find (ws : WvlModel) (wvl_guess : ℚ) (u : WvlUnit) :
    Except PyErr (ℕ × ℚ) :=
  let current_unit := ws.unit
  let ws2 := ws.convert_to u
  match ws2.asarray true with
  | .error e => .error e
  | .ok arr =>
    if arr = [] then .error .valueError
    else
      let idx := argminAbs wvl_guess arr
      let ws3 := ws2.convert_to current_unit
      .ok (idx, ws3.values.getD idx 0)

/-- Embedding of `Spectrum1D` (spec1D_models.py lines 24-49). -/
structure Spectrum1D where
  name : String
  spectrum : List ℚ
  wavelength : WvlModel
  bbl_applied : Bool
deriving DecidableEq

/-- Embedding of `Spectrum1D.applybbl` (spec1D_models.py lines 47-49):
`self.spectrum = list(np.asarray(self.spectrum)[self.wavelength.bbl])`
followed by `self.bbl_applied = True`. When the boolean mask length
does not match the current data length, numpy raises `IndexError`
before the assignment, leaving the record unchanged; the embedding
returns the (possibly unchanged) record paired with the raised
exception, if any. -/
def Spectrum1D.applybbl (s : Spectrum1D) : Spectrum1D × Option PyErr :=
  if s.spectrum.length = s.wavelength.bbl.length then
    ({ s with spectrum := boolIndexFilter s.spectrum s.wavelength.bbl,
              bbl_applied := true }, none)
  else (s, some .indexError)

/-- Embedding of `PointSpectrum1D` (spec1D_models.py lines 52-74). -/
structure PointSpectrum1D extends Spectrum1D where
  pixel : PointModel
deriving DecidableEq

/-- Embedding of `GeoSpectrum1D` (spec1D_models.py lines 77-99). -/
structure GeoSpectrum1D extends Spectrum1D where
  point : PointGeolocation
deriving DecidableEq

/-- The three 1-D spectrum record shapes a `.rawspec`/`.pntspec`/
`.geospec` file holds, as one sum (Python uses three classes). -/
inductive Spec1DRecord where
  | raw : Spectrum1D → Spec1DRecord
  | pnt : PointSpectrum1D → Spec1DRecord
  | geo : GeoSpectrum1D → Spec1DRecord
deriving DecidableEq

/-- Embedding of `write_spec1D` (writing.py lines 64-185), restricted to
its pure record-building and suffix-selection logic: the wavelength
model and the optional geodata model stand for the already-loaded
inputs (file loading is I/O). Returns the record that would be
serialized together with the chosen file suffix. The map-coordinate
branch passes `(location[1], location[0])` to `from_base`, as the
source does. -/
def write_spec1D (spec_vals : List ℚ) (wvlmodel : WvlModel) (name : String)
    (location : Option (ℚ × ℚ)) (location_type : LocationType)
    (geodata : Option BaseGeolocationModel) :
    Except PyErr (Spec1DRecord × String) :=
  match location with
  | none =>
    .ok (.raw { name := name, spectrum := spec_vals, wavelength := wvlmodel,
                bbl_applied := false }, ".rawspec")
  | some loc =>
    match geodata with
    | some gd =>
      match location_type with
      | .map =>
        match PointGeolocation.from_base gd (loc.2, loc.1) .map with
        | .error e => .error e
        | .ok geopt =>
          .ok (.geo { name := name, spectrum := spec_vals,
                      wavelength := wvlmodel, bbl_applied := false,
                      point := geopt }, ".geospec")
      | .pixel =>
        match PointGeolocation.from_base gd loc .pixel with
        | .error e => .error e
        | .ok geopt =>
          .ok (.geo { name := name, spectrum := spec_vals,
                      wavelength := wvlmodel, bbl_applied := false,
                      point := geopt }, ".geospec")
    | none =>
      match location_type with
      | .map => .error .valueError
      | .pixel =>
        .ok (.pnt { name := name, spectrum := spec_vals,
                    wavelength := wvlmodel, bbl_applied := false,
                    pixel := { x := loc.1, y := loc.2 } }, ".pntspec")

/-- A file handed to a reader: its extension (`Path(fp).suffix`) and its
textual content. -/
structure SrcFile where
  suffix : String
  content : String

/-- Embedding of `SpectrumGroup`'s stored fields (specgroup_models.py);
the hull polygon is computed by the external `alphashape` collaborator
and is not modelled. Only the reader dispatch over this record is
needed here. -/
structure SpectrumGroup where
  name : String
  spectra : List PointSpectrum1D
  spectra_pts : List (ℤ × ℤ)
  wavelength : WvlModel
  nspectra : ℕ
  bbl_applied : Bool

/-- Embedding of `Spectrum3D`'s stored fields (spec3D_models.py). -/
structure Spectrum3D where
  name : String
  wavelength : WvlModel
  nrows : ℕ
  ncols : ℕ
  nbands : ℕ
  raster_fp : String

/-- Embedding of `GeoSpectrum3D` (spec3D_models.py). -/
structure GeoSpectrum3D extends Spectrum3D where
  geodata : BaseGeolocationModel

/-- The `kind` literal of `read_spec1D` (spec1D_models.py). -/
inductive Spec1DKind where
  | rawspec
  | pntspec
  | geospec

/-- The `kind` literal of `read_spec3D` (spec3D_models.py). -/
inductive Spec3DKind where
  | spcub
  | geospcub

/-- The two cube record shapes, as one sum. -/
inductive Spec3DRecord where
  | cub : Spectrum3D → Spec3DRecord
  | geocub : GeoSpectrum3D → Spec3DRecord

/-- Lifts an abstracted `model_validate_json` call into the reader's
error world: a parse/validation failure surfaces as pydantic's
`ValidationError`, never as any other error class. -/
def liftParse {α : Type} (r : Except Unit α) : Except PyErr α :=
  match r with
  | .ok a => .ok a
  | .error _ => .error .validationError

/-- Embedding of `read_wvl` (reading.py lines 103-121): rejects any
suffix other than `.wvl` with a `FileTypeError` before parsing; the
JSON parse and pydantic validation of the content is abstracted as the
`parse` argument, whose failures are `ValidationError`s. -/
def read_wvl (parse : String → Except Unit WvlModel) (f : SrcFile) :
    Except PyErr WvlModel :=
  if f.suffix ≠ ".wvl" then .error (.fileTypeError ".wvl" f.suffix)
  else liftParse (parse f.content)

/-- Embedding of `read_geodata` (reading.py lines 23-31): rejects any
suffix other than `.geodata` before parsing. -/
def read_geodata (parse : String → Except Unit BaseGeolocationModel)
    (f : SrcFile) : Except PyErr BaseGeolocationModel :=
  if f.suffix ≠ ".geodata" then .error (.fileTypeError ".geodata" f.suffix)
  else liftParse (parse f.content)

/-- Embedding of `read_group` (reading.py lines 70-77): rejects any
suffix other than `.specgrp` before parsing; the source's error
message names `.wvl` as the expected type, which the embedded error
payload reproduces. -/
def read_group (parse : String → Except Unit SpectrumGroup) (f : SrcFile) :
    Except PyErr SpectrumGroup :=
  if f.suffix ≠ ".specgrp" then .error (.fileTypeError ".wvl" f.suffix)
  else liftParse (parse f.content)

/-- Embedding of `read_spec1D` (reading.py lines 52-67): dispatches on
the `kind` argument and parses the file content with the matching
model's validator; the file suffix is never examined. -/
def read_spec1D (parseRaw : String → Except Unit Spectrum1D)
    (parsePnt : String → Except Unit PointSpectrum1D)
    (parseGeo : String → Except Unit GeoSpectrum1D)
    (f : SrcFile) (kind : Spec1DKind) : Except PyErr Spec1DRecord :=
  match kind with
  | .rawspec => (liftParse (parseRaw f.content)).map .raw
  | .pntspec => (liftParse (parsePnt f.content)).map .pnt
  | .geospec => (liftParse (parseGeo f.content)).map .geo

/-- Embedding of `read_spec3D` (reading.py lines 90-100): dispatches on
the `kind` argument; the file suffix is never examined. -/
def read_spec3D (parseCub : String → Except Unit Spectrum3D)
    (parseGeoCub : String → Except Unit GeoSpectrum3D)
    (f : SrcFile) (kind : Spec3DKind) : Except PyErr Spec3DRecord :=
  match kind with
  | .spcub => (liftParse (parseCub f.content)).map .cub
  | .geospcub => (liftParse (parseGeoCub f.content)).map .geocub

/-- What the specification describes `nearest`/`find` to do: scan the
full (unmasked) value sequence, after temporary conversion to the
comparison unit, for the first entry at minimal absolute difference
from the guess, restore the original unit, and return the index
together with the value stored at that index in the restored list.
This definition follows the spec's words; it exists to be compared
with the source-derived `WvlModel.find`. -/
def find_described (ws : WvlModel) (wvl_guess : ℚ) (u : WvlUnit) : ℕ × ℚ :=
  let ws2 := ws.convert_to u
  let idx := argminAbs wvl_guess ws2.values
  (idx, ((ws2.convert_to ws.unit).values.getD idx 0))

/-- Fixture: the geotransform of the C1 failing input — unit x
resolution, y resolution 2, row rotation 1, no column rotation,
origin at (0, 0); its determinant is 2. -/
def gtRot : GeotransformModel :=
  { upperleft := { x := 0, y := 0 }, xres := 1, row_rotation := 1,
    yres := 2, col_rotation := 0 }

/-- Fixture: a degenerate geotransform (yres = 0, no rotation), with
determinant zero. -/
def gtDeg : GeotransformModel :=
  { upperleft := { x := 0, y := 0 }, xres := 1, row_rotation := 0,
    yres := 0, col_rotation := 0 }

/-- Fixture: another degenerate geotransform (xres = 2, yres = 0),
determinant zero, used to exercise the zero-determinant branch at a
second input. -/
def gtDeg2 : GeotransformModel :=
  { upperleft := { x := 1, y := 1 }, xres := 2, row_rotation := 0,
    yres := 0, col_rotation := 0 }

/-- Fixture: the identity-resolution geotransform with origin (0, 0)
and no rotation. -/
def gtId : GeotransformModel :=
  { upperleft := { x := 0, y := 0 }, xres := 1, row_rotation := 0,
    yres := 1, col_rotation := 0 }

/-- Fixture: wavelength series [400, 500, 600] nm whose middle band is
flagged bad, as stored after validation. -/
def wsBad : WvlModel :=
  { values := [400, 500, 600], unit := .nm, bbl := [true, false, true],
    resolution := 200 / 3, nbands := 3, ngoodbands := 2 }

/-- Fixture: wavelength series [400, 500, 600] nm with an all-true
mask, as stored after validation. -/
def wsGood : WvlModel :=
  { values := [400, 500, 600], unit := .nm, bbl := [true, true, true],
    resolution := 200 / 3, nbands := 3, ngoodbands := 3 }

/-- Fixture: wavelength series [100, 300] nm, as stored after
validation; its resolution is (300 - 100) / 2 = 100. -/
def wsRes : WvlModel :=
  { values := [100, 300], unit := .nm, bbl := [true, true],
    resolution := 100, nbands := 2, ngoodbands := 2 }

/-- Fixture: a one-band wavelength series. -/
def sampleWvl : WvlModel :=
  { values := [500], unit := .nm, bbl := [true], resolution := 0,
    nbands := 1, ngoodbands := 1 }

/-- Fixture: a minimal raw 1-D spectrum record. -/
def sampleSpec1D : Spectrum1D :=
  { name := "s", spectrum := [1], wavelength := sampleWvl,
    bbl_applied := false }

/-- Fixture: a parse that accepts any content as `sampleSpec1D`. -/
def parseRawConst : String → Except Unit Spectrum1D :=
  fun _ => .ok sampleSpec1D

/-- Fixture: a parse for point spectra that always fails. -/
def parseFailPnt : String → Except Unit PointSpectrum1D :=
  fun _ => .error ()

/-- Fixture: a parse for geolocated spectra that always fails. -/
def parseFailGeo : String → Except Unit GeoSpectrum1D :=
  fun _ => .error ()

/-- Fixture: a parse that accepts any content as `sampleWvl`. -/
def parseWvlConst : String → Except Unit WvlModel :=
  fun _ => .ok sampleWvl

/-- Fixture: a spectrum over `wsBad` whose data length matches the band
count. -/
def specBad : Spectrum1D :=
  { name := "s", spectrum := [1, 2, 3], wavelength := wsBad,
    bbl_applied := false }

/-- Fixture: a spectrum over `wsGood` (all-true mask) whose data length
matches the band count. -/
def specGood : Spectrum1D :=
  { name := "s", spectrum := [1, 2, 3], wavelength := wsGood,
    bbl_applied := false }

/-- Fixture: the point geolocation that `from_base` produces over `gtId`
from the pixel location (2, 3). -/
def pgC9 : PointGeolocation :=
  { crs := "c", geotransform := gtId, map_point := { x := 2, y := 3 },
    pixel_point := { x := 2, y := 3 } }

lemma map_roundtrip (f g : ℚ → ℚ) (l : List ℚ) (h : ∀ x ∈ l, g (f x) = x) :
    (l.map f).map g = l := by
  induction l with
  | nil => rfl
  | cons x xs ih =>
    simp only [List.map_cons, List.cons.injEq]
    exact ⟨h x (by simp), ih fun y hy => h y (by simp [hy])⟩

lemma qdiv_qdiv (c x : ℚ) (hc : c ≠ 0) : c / (c / x) = x := by
  rcases eq_or_ne x 0 with rfl | hx
  · simp
  · field_simp

lemma boolIndexFilter_replicate (l : List ℚ) :
    boolIndexFilter l (List.replicate l.length true) = l := by
  induction l with
  | nil => rfl
  | cons x xs ih => simp [boolIndexFilter, List.replicate, ih]

lemma boolIndexFilter_length (l : List ℚ) (m : List Bool)
    (h : l.length = m.length) :
    (boolIndexFilter l m).length = m.count true := by
  induction m generalizing l with
  | nil => cases l <;> simp_all [boolIndexFilter]
  | cons b bs ih =>
    cases l with
    | nil => simp at h
    | cons x xs =>
      simp only [List.length_cons, Nat.succ.injEq] at h
      cases b <;> simp [boolIndexFilter, ih xs h, List.count_cons]

lemma count_true_lt_length (m : List Bool) (h : false ∈ m) :
    m.count true < m.length := by
  induction m with
  | nil => simp at h
  | cons b bs ih =>
    rcases List.mem_cons.mp h with hb | hb
    · cases b
      · simpa [List.count_cons] using
          Nat.lt_succ_of_le (List.count_le_length true bs)
      · simp at hb
    · cases b <;> simp [List.count_cons, Nat.succ_lt_succ (ih hb),
        Nat.lt_succ_of_lt (ih hb), ih hb]

lemma applybbl_eq_of_len (t : Spectrum1D)
    (h : t.spectrum.length = t.wavelength.bbl.length) :
    t.applybbl =
      ({ t with spectrum := boolIndexFilter t.spectrum t.wavelength.bbl,
                bbl_applied := true }, none) := by
  simp only [Spectrum1D.applybbl, if_pos h]

lemma applybbl_eq_of_ne (t : Spectrum1D)
    (h : ¬t.spectrum.length = t.wavelength.bbl.length) :
    t.applybbl = (t, some .indexError) := by
  simp only [Spectrum1D.applybbl, if_neg h]

lemma convert_to_unit_eq (ws : WvlModel) (u : WvlUnit) :
    (ws.convert_to u).unit = u := by
  cases u <;> cases h : ws.unit <;>
    simp [WvlModel.convert_to, WvlModel.to_nm, WvlModel.to_um,
      WvlModel.to_m, WvlModel.to_v, h]

lemma convert_to_preserves (ws : WvlModel) (u : WvlUnit) :
    (ws.convert_to u).bbl = ws.bbl ∧
    (ws.convert_to u).resolution = ws.resolution ∧
    (ws.convert_to u).nbands = ws.nbands ∧
    (ws.convert_to u).ngoodbands = ws.ngoodbands ∧
    (ws.convert_to u).values.length = ws.values.length := by
  cases u <;> cases h : ws.unit <;>
    simp [WvlModel.convert_to, WvlModel.to_nm, WvlModel.to_um,
      WvlModel.to_m, WvlModel.to_v, h]

lemma convert_to_self_values (ws : WvlModel) (u : WvlUnit)
    (h : ws.unit = u) : (ws.convert_to u).values = ws.values := by
  cases u <;>
    simp [WvlModel.convert_to, WvlModel.to_nm, WvlModel.to_um,
      WvlModel.to_m, WvlModel.to_v, h]

lemma convert_to_roundtrip_values (ws : WvlModel) (b : WvlUnit) :
    ((ws.convert_to b).convert_to ws.unit).values = ws.values := by
  rcases ws with ⟨vals, u, bbl, res, nb, ng⟩
  cases u <;> cases b <;>
    simp only [WvlModel.convert_to, WvlModel.to_nm, WvlModel.to_um,
      WvlModel.to_m, WvlModel.to_v] <;>
    first
      | rfl
      | (refine map_roundtrip _ _ _ fun x hx => ?_
         first
           | exact qdiv_qdiv _ x (by norm_num)
           | exact one_div_one_div x
           | ring)

/-- C1: on the geotransform with xres 1, yres 2, row rotation 1, no
column rotation and origin (0,0) — determinant 2, nonzero — the pixel
coordinate (1, 1) maps to the map point (2, 2), but `map_to_pixel`
sends (2, 2) to the pixel point (0, 1), not back to (1, 1) (and raises
no bounds error, both coordinates being non-negative): the claimed
inverse law fails exactly, not merely outside tolerance, when a
rotation term is nonzero and xres ≠ yres. -/
theorem C1_map_to_pixel_not_inverse_with_rotation :
    gtRot.determinant ≠ 0 ∧
    gtRot.pixel_to_map 1 1 .hemi = (2, 2) ∧
    gtRot.map_to_pixel 2 2 = .ok (0, 1) ∧
    ((0, 1) : ℚ × ℚ) ≠ (1, 1) := by
  refine ⟨?_, ?_, ?_, ?_⟩
  · simp only [GeotransformModel.determinant, gtRot]; norm_num
  · simp only [GeotransformModel.pixel_to_map, gtRot]; norm_num
  · simp only [GeotransformModel.map_to_pixel, gtRot]; norm_num
  · simp only [ne_eq, Prod.mk.injEq]; norm_num

/-- C2 counterexample: on the geotransform with yres = 0 (determinant
zero), `map_to_pixel` surfaces Python's raw `ZeroDivisionError` — there
is no `DegenerateTransformError` anywhere in the code — contradicting
the claim that a zero determinant yields an explicit domain error and
never a raw division error. -/
theorem C2_zero_determinant_raises_raw_division_error :
    gtDeg.determinant = 0 ∧
    gtDeg.map_to_pixel 5 5 = .error .zeroDivisionError := by
  constructor
  · simp only [GeotransformModel.determinant, gtDeg]; norm_num
  · simp only [GeotransformModel.map_to_pixel, gtDeg]; norm_num

/-- C2 amended: whenever the determinant xres*yres − col_rot*row_rot is
zero, `map_to_pixel` raises a raw `ZeroDivisionError` (no named domain
error exists); every `GeographicBoundsError` it raises names, in its
message, the offending input map coordinate and the violated bound
(x against the left bound `upperleft.x`, y against the top bound
`upperleft.y`); every returned pixel pair has non-negative
coordinates; and when xres, yres and the determinant are all nonzero
no division error is raised. -/
theorem C2_map_to_pixel_error_classes (g : GeotransformModel) (x y : ℚ) :
    (g.determinant = 0 → g.map_to_pixel x y = .error .zeroDivisionError) ∧
    (∀ c b, g.map_to_pixel x y = .error (.geographicBoundsError c b) →
      (c = x ∧ b = g.upperleft.x) ∨ (c = y ∧ b = g.upperleft.y)) ∧
    (∀ px py, g.map_to_pixel x y = .ok (px, py) → 0 ≤ px ∧ 0 ≤ py) ∧
    (g.xres ≠ 0 → g.yres ≠ 0 → g.determinant ≠ 0 →
      g.map_to_pixel x y ≠ .error .zeroDivisionError) := by
  refine ⟨?_, ?_, ?_, ?_⟩
  · intro h
    simp only [GeotransformModel.determinant] at h
    by_cases hx : g.xres = 0
    · simp [GeotransformModel.map_to_pixel, hx]
    · simp [GeotransformModel.map_to_pixel, hx, h]
  · intro c b heq
    simp only [GeotransformModel.map_to_pixel] at heq
    split_ifs at heq with h1 h2 h3 h4 h5
    all_goals
      simp only [Except.error.injEq, PyErr.geographicBoundsError.injEq,
        reduceCtorEq] at heq
    · exact Or.inl ⟨heq.1.symm, heq.2.symm⟩
    · exact Or.inr ⟨heq.1.symm, heq.2.symm⟩
  · intro px py heq
    simp only [GeotransformModel.map_to_pixel] at heq
    split_ifs at heq with h1 h2 h3 h4 h5
    all_goals
      simp only [Except.ok.injEq, Prod.mk.injEq, reduceCtorEq] at heq
    exact ⟨heq.1 ▸ not_lt.mp h4, heq.2 ▸ not_lt.mp h5⟩
  · intro hx hy hs
    simp only [GeotransformModel.determinant] at hs
    simp only [GeotransformModel.map_to_pixel, hx, hy, hs]
    split_ifs <;> simp_all

/-- C2 witness: the amended theorem applied to a second degenerate
transform (xres 2, yres 0, determinant zero) at the map point (7, 7)
yields the raw division error. -/
theorem C2_map_to_pixel_error_classes_witness :
    gtDeg2.map_to_pixel 7 7 = .error .zeroDivisionError :=
  (C2_map_to_pixel_error_classes gtDeg2 7 7).1
    (by simp only [GeotransformModel.determinant, gtDeg2]; norm_num)

/-- C3 counterexample: on the series [400, 500, 600] nm whose middle
band is flagged bad, `find(500, "nm")` scans only the mask-filtered
values [400, 600] — `asarray()` applies the bad-band mask by default —
picks filtered index 0, and returns `(0, 400.0)` by indexing the full
list with that filtered index, while the claimed full-unmasked scan
would return `(1, 500.0)`. -/
theorem C3_find_scans_masked_values :
    wsBad.find 500 .nm = .ok (0, 400) ∧
    find_described wsBad 500 .nm = (1, 500) ∧
    ((0, 400) : ℕ × ℚ) ≠ (1, 500) := by
  refine ⟨?_, ?_, ?_⟩
  · simp only [WvlModel.find, WvlModel.convert_to, WvlModel.to_nm, wsBad,
      WvlModel.asarray, boolIndexFilter, argminAbs]
    norm_num [argminAbsAux, List.getD]
    intro h
    exact absurd h (by simp)
  · simp only [find_described, WvlModel.convert_to, WvlModel.to_nm, wsBad,
      argminAbs]
    norm_num [argminAbsAux, List.getD]
  · simp

/-- C3 amended: when the good-band mask is all-true, `find` does behave
as the claim describes — it scans the full value sequence (the mask
filter is the identity), ties break to the first occurrence, the
original unit is restored exactly (in the rational embedding), and the
returned pair is the argmin index with the exact value stored at that
index of the restored list; with bad bands present, the scan is over
the filtered sequence and the returned index addresses the full list
(see the counterexample). -/
theorem C3_find_full_scan_when_mask_all_true (ws : WvlModel) (g : ℚ)
    (u : WvlUnit) (hbbl : ws.bbl = List.replicate ws.values.length true)
    (hne : ws.values ≠ []) :
    ws.find g u = .ok (find_described ws g u) ∧
    (find_described ws g u).2 =
      ws.values.getD (find_described ws g u).1 0 := by
  have hpres := convert_to_preserves ws u
  have hlen : (ws.convert_to u).values.length = ws.values.length :=
    hpres.2.2.2.2
  have hbbl2 : (ws.convert_to u).bbl =
      List.replicate (ws.convert_to u).values.length true := by
    rw [hpres.1, hlen, hbbl]
  have hlen2 : (ws.convert_to u).values.length =
      (ws.convert_to u).bbl.length := by
    rw [hbbl2, List.length_replicate]
  have harr : boolIndexFilter (ws.convert_to u).values (ws.convert_to u).bbl
      = (ws.convert_to u).values := by
    rw [hbbl2]; exact boolIndexFilter_replicate _
  have hne2 : (ws.convert_to u).values ≠ [] := by
    intro h0
    exact hne (List.length_eq_zero.mp (by rw [← hlen, h0, List.length_nil]))
  constructor
  · simp only [WvlModel.find, WvlModel.asarray, if_pos hlen2, if_true,
      harr, if_neg hne2, find_described]
  · simp only [find_described]
    rw [convert_to_roundtrip_values]

/-- C3 witness: on [400, 500, 600] nm with an all-true mask, the lookup
agrees with the full-scan description and returns (1, 500.0), the
claim's own example. -/
theorem C3_find_full_scan_witness :
    wsGood.find 500 .nm = .ok (find_described wsGood 500 .nm) ∧
    find_described wsGood 500 .nm = (1, 500) := by
  refine ⟨(C3_find_full_scan_when_mask_all_true wsGood 500 .nm rfl
    (List.cons_ne_nil _ _)).1, ?_⟩
  simp only [find_described, WvlModel.convert_to, WvlModel.to_nm, wsGood,
    argminAbs]
  norm_num [argminAbsAux, List.getD]

/-- C4: for a series with positive values whose unit is `a`,
`convert_to(b)` followed by `convert_to(a)` restores the original
values exactly in the rational embedding (the float implementation
agrees within tolerance), with the unit back at `a`; and when
`a = b`, a single `convert_to(b)` is an exact no-op on the values. -/
theorem C4_convert_to_roundtrip (a b : WvlUnit) (ws : WvlModel)
    (hunit : ws.unit = a) (_hpos : ∀ x ∈ ws.values, 0 < x) :
    ((ws.convert_to b).convert_to a).values = ws.values ∧
    ((ws.convert_to b).convert_to a).unit = a ∧
    (a = b → (ws.convert_to b).values = ws.values) := by
  subst hunit
  exact ⟨convert_to_roundtrip_values ws b, convert_to_unit_eq _ _,
    fun hab => convert_to_self_values ws b hab⟩

/-- C4 witness: the round-trip law applied to [400, 500, 600] nm with
target unit um. -/
theorem C4_convert_to_roundtrip_witness :
    ((wsGood.convert_to .um).convert_to .nm).values = wsGood.values ∧
    ((wsGood.convert_to .um).convert_to .nm).unit = .nm ∧
    (WvlUnit.nm = .um → (wsGood.convert_to .um).values = wsGood.values) :=
  C4_convert_to_roundtrip .nm .um wsGood rfl (by norm_num [wsGood])

/-- C5 amended: after `convert_to(target)` the `unit` field equals the
target and the values are rescaled, but the derived fields are NOT
recomputed — pydantic's `set_resolution` validator runs only at
construction/parse, and assignment validation is not enabled — so
`resolution`, `nbands` and `ngoodbands` keep their prior stored
values. The two band counts happen to stay correct because conversion
preserves the value-list length and the mask, while `resolution`
becomes stale (see the counterexample). -/
theorem C5_convert_to_updates_unit_keeps_derived (ws : WvlModel)
    (u : WvlUnit) :
    (ws.convert_to u).unit = u ∧
    (ws.convert_to u).resolution = ws.resolution ∧
    (ws.convert_to u).nbands = ws.nbands ∧
    (ws.convert_to u).ngoodbands = ws.ngoodbands ∧
    (ws.convert_to u).bbl = ws.bbl ∧
    (ws.convert_to u).values.length = ws.values.length :=
  ⟨convert_to_unit_eq ws u, (convert_to_preserves ws u).2.1,
   (convert_to_preserves ws u).2.2.1, (convert_to_preserves ws u).2.2.2.1,
   (convert_to_preserves ws u).1, (convert_to_preserves ws u).2.2.2.2⟩

/-- C5 counterexample: the series [100, 300] nm is constructed with
resolution (300 − 100) / 2 = 100; after `convert_to("um")` the values
become [0.1, 0.3], whose recomputed resolution would be 0.1, yet the
stored `resolution` field still reads 100 — the derived fields are not
recomputed on conversion, contradicting the claim. -/
theorem C5_convert_to_resolution_stale :
    mkWvlModel [100, 300] .nm [true, true] = .ok wsRes ∧
    (wsRes.convert_to .um).values = [1 / 10, 3 / 10] ∧
    (wsRes.convert_to .um).resolution = 100 ∧
    (listMax [(1 : ℚ) / 10, 3 / 10] - listMin [(1 : ℚ) / 10, 3 / 10]) /
      ([(1 : ℚ) / 10, 3 / 10] : List ℚ).length = 1 / 10 ∧
    (100 : ℚ) ≠ 1 / 10 := by
  refine ⟨?_, ?_, ?_, ?_, ?_⟩
  · simp only [mkWvlModel, listMax, listMin, wsRes]
    norm_num [List.count]
  · simp only [WvlModel.convert_to, WvlModel.to_um, wsRes, List.map]
    norm_num
  · simp only [WvlModel.convert_to, WvlModel.to_um, wsRes]
  · simp only [listMax, listMin]
    norm_num
  · norm_num

/-- C6 amended: constructing a `WvlModel` fails with a
`ValidationError` when the values sequence is empty (the `np.max`
reduction inside the `set_resolution` validator raises, and pydantic
converts it), and construction is atomic — the error branch returns no
record. But no validator compares the mask length with the values
length: any non-empty values with any mask, equal-length or not, is
accepted, with `ngoodbands` counting the given mask's true entries. -/
theorem C6_construction_validation (values : List ℚ) (unit : WvlUnit)
    (bbl : List Bool) :
    (values = [] → mkWvlModel values unit bbl = .error .validationError) ∧
    (values ≠ [] → mkWvlModel values unit bbl =
      .ok { values := values, unit := unit, bbl := bbl,
            resolution := (listMax values - listMin values) / values.length,
            nbands := values.length, ngoodbands := bbl.count true }) := by
  constructor
  · rintro rfl; rfl
  · intro h
    cases values with
    | nil => exact absurd rfl h
    | cons x xs => rfl

/-- C6 witness: the amended theorem at the empty input and at a
two-value input with a one-entry mask. -/
theorem C6_construction_validation_witness :
    mkWvlModel [] .nm [] = .error .validationError ∧
    mkWvlModel [5, 6] .nm [true] =
      .ok { values := [5, 6], unit := .nm, bbl := [true],
            resolution :=
              (listMax [5, 6] - listMin [5, 6]) / ([5, 6] : List ℚ).length,
            nbands := ([5, 6] : List ℚ).length,
            ngoodbands := ([true] : List Bool).count true } :=
  ⟨(C6_construction_validation [] .nm []).1 rfl,
   (C6_construction_validation [5, 6] .nm [true]).2 (List.cons_ne_nil _ _)⟩

/-- C6 counterexample: a mask of length 1 against two values — the
claim says construction must fail with a `ValidationError`, but the
code accepts it and returns a fully-built record. -/
theorem C6_mask_length_mismatch_accepted :
    ([true] : List Bool).length ≠ ([1, 2] : List ℚ).length ∧
    mkWvlModel [1, 2] .nm [true] =
      .ok { values := [1, 2], unit := .nm, bbl := [true],
            resolution := 1 / 2, nbands := 2, ngoodbands := 1 } := by
  constructor
  · decide
  · simp only [mkWvlModel, listMax, listMin]
    norm_num [List.count]

/-- C7 counterexample: `read_spec1D` called on a file whose suffix is
`.txt` — not `.rawspec` — does not raise a `FileTypeError`: it goes
straight to parsing and returns the parsed record, contradicting the
claim that every reader validates the extension before parsing. -/
theorem C7_spec1D_reader_skips_extension_check :
    (".txt" : String) ≠ ".rawspec" ∧
    read_spec1D parseRawConst parseFailPnt parseFailGeo
      { suffix := ".txt", content := "x" } .rawspec =
      .ok (.raw sampleSpec1D) := by
  exact ⟨by decide, rfl⟩

/-- C7 amended: `read_wvl`, `read_geodata` and `read_group` do validate
the file extension strictly and fail with a `FileTypeError` naming the
given (mismatched) extension before any parsing (the message of
`read_group` misnames the expected type as `.wvl`); but the 1-D
spectrum reader `read_spec1D` (covering `.rawspec`/`.pntspec`/
`.geospec`) and the cube reader `read_spec3D` (covering `.spcub`/
`.geospcub`) never examine the suffix and can only succeed or fail
with a `ValidationError`. -/
theorem C7_reader_extension_contract
    (pw : String → Except Unit WvlModel)
    (pgd : String → Except Unit BaseGeolocationModel)
    (pgr : String → Except Unit SpectrumGroup)
    (p1 : String → Except Unit Spectrum1D)
    (p2 : String → Except Unit PointSpectrum1D)
    (p3 : String → Except Unit GeoSpectrum1D)
    (pc : String → Except Unit Spectrum3D)
    (pgc : String → Except Unit GeoSpectrum3D)
    (f : SrcFile) :
    (f.suffix ≠ ".wvl" →
      read_wvl pw f = .error (.fileTypeError ".wvl" f.suffix)) ∧
    (f.suffix ≠ ".geodata" →
      read_geodata pgd f = .error (.fileTypeError ".geodata" f.suffix)) ∧
    (f.suffix ≠ ".specgrp" →
      read_group pgr f = .error (.fileTypeError ".wvl" f.suffix)) ∧
    (∀ kind e s,
      read_spec1D p1 p2 p3 f kind ≠ .error (.fileTypeError e s)) ∧
    (∀ kind e s,
      read_spec3D pc pgc f kind ≠ .error (.fileTypeError e s)) := by
  refine ⟨?_, ?_, ?_, ?_, ?_⟩
  · intro h; simp [read_wvl, h]
  · intro h; simp [read_geodata, h]
  · intro h; simp [read_group, h]
  · intro kind e s
    cases kind
    · cases h1 : p1 f.content <;>
        simp [read_spec1D, liftParse, h1, Except.map]
    · cases h2 : p2 f.content <;>
        simp [read_spec1D, liftParse, h2, Except.map]
    · cases h3 : p3 f.content <;>
        simp [read_spec1D, liftParse, h3, Except.map]
  · intro kind e s
    cases kind
    · cases h1 : pc f.content <;>
        simp [read_spec3D, liftParse, h1, Except.map]
    · cases h2 : pgc f.content <;>
        simp [read_spec3D, liftParse, h2, Except.map]

/-- C7 witness: `read_wvl` on a `.txt` file fails with the
`FileTypeError` carrying `.wvl` (the expected type named by its
message) and `.txt` (the mismatched extension). -/
theorem C7_reader_extension_contract_witness :
    read_wvl parseWvlConst { suffix := ".txt", content := "x" } =
      .error (.fileTypeError ".wvl" ".txt") :=
  (C7_reader_extension_contract parseWvlConst (fun _ => .error ())
    (fun _ => .error ()) parseRawConst parseFailPnt parseFailGeo
    (fun _ => .error ()) (fun _ => .error ())
    { suffix := ".txt", content := "x" }).1 (by decide)

/-- C8: the 1-D spectrum writer selects the suffix from the input
shape — no location gives `.rawspec`; a location with no geodata and
pixel coordinates gives `.pntspec`; a location with geodata gives
`.geospec` (unconditionally for pixel coordinates, and whenever the
map→pixel resolution succeeds for map coordinates); and a location in
map coordinates with no geodata fails with a `ValueError` before
anything is written. -/
theorem C8_write_spec1D_suffix_selection (sv : List ℚ) (w : WvlModel)
    (nm0 : String) (lt : LocationType) (gd : Option BaseGeolocationModel)
    (l : ℚ × ℚ) (g : BaseGeolocationModel) :
    (write_spec1D sv w nm0 none lt gd =
      .ok (.raw { name := nm0, spectrum := sv, wavelength := w,
                  bbl_applied := false }, ".rawspec")) ∧
    (write_spec1D sv w nm0 (some l) .pixel none =
      .ok (.pnt { name := nm0, spectrum := sv, wavelength := w,
                  bbl_applied := false,
                  pixel := { x := l.1, y := l.2 } }, ".pntspec")) ∧
    (∃ geopt, write_spec1D sv w nm0 (some l) .pixel (some g) =
      .ok (.geo { name := nm0, spectrum := sv, wavelength := w,
                  bbl_applied := false, point := geopt }, ".geospec")) ∧
    (∀ r, write_spec1D sv w nm0 (some l) .map (some g) = .ok r →
      r.2 = ".geospec") ∧
    (write_spec1D sv w nm0 (some l) .map none = .error .valueError) := by
  refine ⟨rfl, rfl, ⟨_, rfl⟩, ?_, rfl⟩
  intro r hr
  cases hfb : PointGeolocation.from_base g (l.2, l.1) .map with
  | error e => simp [write_spec1D, hfb] at hr
  | ok geopt =>
    simp only [write_spec1D, hfb, Except.ok.injEq] at hr
    rw [← hr]

/-- C8 witness: the map-coordinate branch of the suffix-selection
theorem applied over the identity transform at location (3, 4), where
the map→pixel conversion succeeds. -/
theorem C8_write_spec1D_suffix_selection_witness :
    ((Spec1DRecord.geo
      { name := "s", spectrum := [1], wavelength := sampleWvl,
        bbl_applied := false,
        point := { crs := "c", geotransform := gtId,
                   map_point := { x := 4, y := 3 },
                   pixel_point := { x := 4, y := 3 } } },
      ".geospec") : Spec1DRecord × String).2 = ".geospec" :=
  (C8_write_spec1D_suffix_selection [1] sampleWvl "s" .map none (3, 4)
    ⟨"c", gtId⟩).2.2.2.1 _
    (by simp only [write_spec1D, PointGeolocation.from_base,
          GeotransformModel.map_to_pixel, gtId]
        norm_num)

/-- C9 counterexample: pydantic parses a `PointGeolocation` (as done
when reading a `.geospec` file) with no cross-field validation: a
record whose pixel point (5, 5) maps to (5, 5) under its own identity
transform, yet whose stored map point is (0, 0), is accepted — a
record whose two points disagree with the transform can be parsed,
contradicting the claim. -/
theorem C9_parse_accepts_inconsistent_points :
    parsePointGeolocation "EPSG:4326" gtId { x := 0, y := 0 }
      { x := 5, y := 5 } =
      .ok { crs := "EPSG:4326", geotransform := gtId,
            map_point := { x := 0, y := 0 },
            pixel_point := { x := 5, y := 5 } } ∧
    gtId.pixel_to_map 5 5 .hemi ≠ (0, 0) := by
  constructor
  · rfl
  · simp only [GeotransformModel.pixel_to_map, gtId, ne_eq, Prod.mk.injEq]
    norm_num

/-- C9 amended: consistency of the two points under the owned transform
is established only by the `from_base` constructor — for a pixel-space
input the stored map point is exactly the `pixel_to_map` image of the
stored pixel point, and for a map-space input the stored pixel point
is exactly the `map_to_pixel` solution for the stored map point, with
crs and transform copied from the base — while direct construction and
JSON parsing accept arbitrary point pairs (see the counterexample). -/
theorem C9_from_base_point_consistency (geoloc : BaseGeolocationModel)
    (loc : ℚ × ℚ) :
    (∀ pg, PointGeolocation.from_base geoloc loc .pixel = .ok pg →
      (pg.map_point.x, pg.map_point.y) =
        pg.geotransform.pixel_to_map pg.pixel_point.x pg.pixel_point.y
          .hemi ∧
      pg.pixel_point = { x := loc.1, y := loc.2 } ∧
      pg.crs = geoloc.crs ∧ pg.geotransform = geoloc.geotransform) ∧
    (∀ pg, PointGeolocation.from_base geoloc loc .map = .ok pg →
      pg.geotransform.map_to_pixel pg.map_point.x pg.map_point.y =
        .ok (pg.pixel_point.x, pg.pixel_point.y) ∧
      pg.map_point = { x := loc.1, y := loc.2 } ∧
      pg.crs = geoloc.crs ∧ pg.geotransform = geoloc.geotransform) := by
  constructor
  · intro pg hpg
    simp only [PointGeolocation.from_base, Except.ok.injEq] at hpg
    subst hpg
    exact ⟨rfl, rfl, rfl, rfl⟩
  · intro pg hpg
    simp only [PointGeolocation.from_base] at hpg
    cases hmp : geoloc.geotransform.map_to_pixel loc.1 loc.2 with
    | error e => rw [hmp] at hpg; exact absurd hpg (by simp)
    | ok pp =>
      rw [hmp] at hpg
      simp only [Except.ok.injEq] at hpg
      subst hpg
      exact ⟨hmp, rfl, rfl, rfl⟩

/-- C9 witness: the pixel-space branch of the consistency theorem at
the identity transform and pixel location (2, 3). -/
theorem C9_from_base_point_consistency_witness :
    (pgC9.map_point.x, pgC9.map_point.y) =
      pgC9.geotransform.pixel_to_map pgC9.pixel_point.x pgC9.pixel_point.y
        .hemi ∧
    pgC9.pixel_point = { x := (2 : ℚ), y := (3 : ℚ) } ∧
    pgC9.crs = "c" ∧ pgC9.geotransform = gtId :=
  (C9_from_base_point_consistency ⟨"c", gtId⟩ (2, 3)).1 pgC9
    (by simp only [PointGeolocation.from_base,
          GeotransformModel.pixel_to_map, gtId, pgC9]
        norm_num)

/-- C10: on a record whose data length equals the band count of a
well-formed wavelength series (mask length = band count): if the mask
has a false entry, the first `applybbl` raises nothing, replaces the
data with the mask-filtered subsequence and sets the flag, while a
second call raises `IndexError` — the full-length boolean mask no
longer matches the shortened data — and returns the record unchanged;
if the mask is all-true, the first and second calls both succeed and
leave the data exactly as it was. -/
theorem C10_applybbl_once (s : Spectrum1D)
    (hdata : s.spectrum.length = s.wavelength.nbands)
    (hmask : s.wavelength.bbl.length = s.wavelength.nbands) :
    (false ∈ s.wavelength.bbl →
      s.applybbl.2 = none ∧
      s.applybbl.1.spectrum = boolIndexFilter s.spectrum s.wavelength.bbl ∧
      s.applybbl.1.bbl_applied = true ∧
      s.applybbl.1.applybbl = (s.applybbl.1, some .indexError)) ∧
    (s.wavelength.bbl = List.replicate s.spectrum.length true →
      s.applybbl.2 = none ∧
      s.applybbl.1.spectrum = s.spectrum ∧
      s.applybbl.1.applybbl.2 = none ∧
      s.applybbl.1.applybbl.1.spectrum = s.spectrum) := by
  have hlen : s.spectrum.length = s.wavelength.bbl.length := by
    rw [hdata, hmask]
  have h1 := applybbl_eq_of_len s hlen
  constructor
  · intro hfalse
    have hlt : ¬s.applybbl.1.spectrum.length =
        s.applybbl.1.wavelength.bbl.length := by
      rw [h1]
      show ¬(boolIndexFilter s.spectrum s.wavelength.bbl).length =
        s.wavelength.bbl.length
      rw [boolIndexFilter_length s.spectrum s.wavelength.bbl hlen]
      exact Nat.ne_of_lt (count_true_lt_length _ hfalse)
    exact ⟨by rw [h1], by rw [h1], by rw [h1], applybbl_eq_of_ne _ hlt⟩
  · intro hrep
    have hflt : boolIndexFilter s.spectrum s.wavelength.bbl = s.spectrum := by
      rw [hrep]; exact boolIndexFilter_replicate _
    have h2 : s.applybbl.1.spectrum = s.spectrum := by
      rw [h1]; exact hflt
    have hlen1 : s.applybbl.1.spectrum.length =
        s.applybbl.1.wavelength.bbl.length := by
      rw [h1]
      show (boolIndexFilter s.spectrum s.wavelength.bbl).length =
        s.wavelength.bbl.length
      rw [hflt]; exact hlen
    have h3 := applybbl_eq_of_len s.applybbl.1 hlen1
    have h4 : s.applybbl.1.applybbl.1.spectrum = s.spectrum := by
      rw [h3]
      show boolIndexFilter s.applybbl.1.spectrum
        s.applybbl.1.wavelength.bbl = s.spectrum
      have hw : s.applybbl.1.wavelength.bbl = s.wavelength.bbl := by rw [h1]
      rw [hw, h2, hflt]
    exact ⟨by rw [h1], h2, by rw [h3], h4⟩

/-- C10 witness: the theorem at a spectrum of three bands where the
middle one is bad (first call filters, second raises IndexError) and
at one with an all-true mask (repeated no-ops). -/
theorem C10_applybbl_once_witness :
    (specBad.applybbl.2 = none ∧
     specBad.applybbl.1.spectrum =
       boolIndexFilter specBad.spectrum specBad.wavelength.bbl ∧
     specBad.applybbl.1.bbl_applied = true ∧
     specBad.applybbl.1.applybbl =
       (specBad.applybbl.1, some .indexError)) ∧
    (specGood.applybbl.2 = none ∧
     specGood.applybbl.1.spectrum = specGood.spectrum ∧
     specGood.applybbl.1.applybbl.2 = none ∧
     specGood.applybbl.1.applybbl.1.spectrum = specGood.spectrum) :=
  ⟨(C10_applybbl_once specBad rfl rfl).1 (by decide),
   (C10_applybbl_once specGood rfl rfl).2 rfl⟩

end Spectralio
